import Mathlib

/-!
Verification of the news-feed record pipeline (HomeTask10.py) and the
city-distance coordinate store (Final.py) of the Python_for_Data_Quality
repository, via a shallow embedding of the relevant Python code in Lean.

Modelling conventions:
- Python strings are Lean String values; machine integers are Nat or Int.
- datetime.now() and the randomly drawn weather-alert identifier are external
  nondeterminism, modelled as explicit parameters threaded into the functions
  that the source derives them in.
- A Python function that can raise is modelled with Option or Except; a call
  that would exhaust the interpreter recursion limit is modelled with an
  explicit fuel parameter, where fuel exhaustion (result none) corresponds to
  the RecursionError the interpreter raises.
- SQLite tables are lists of rows in rowid (insertion) order; fetchone is the
  first matching row of that order.
-/

/-! ### Python string helpers -/

/-- Whitespace characters removed by the Python str.strip method
(space, tab, newline, carriage return, vertical tab, form feed). -/
def isPySpace (c : Char) : Bool :=
  c == ' ' || c == '\t' || c == '\n' || c == '\r' || c.toNat == 11 || c.toNat == 12

/-- Embedding of the Python str.strip method: remove leading and trailing
whitespace. -/
def pyStrip (s : String) : String :=
  ⟨((s.toList.dropWhile isPySpace).reverse.dropWhile isPySpace).reverse⟩

/-- Lowercase one ASCII character, the case mapping applied both by the Python
str.lower method and by the SQLite LOWER function on the ASCII inputs the
program uses. -/
def asciiLower (c : Char) : Char :=
  if 'A' ≤ c ∧ c ≤ 'Z' then Char.ofNat (c.toNat + 32) else c

/-- Embedding of Python str.lower / SQLite LOWER (ASCII range). -/
def pyLower (s : String) : String :=
  ⟨s.toList.map asciiLower⟩

/-- All characters of the string are decimal digits. -/
def allDigits (s : String) : Bool :=
  s.toList.all Char.isDigit

/-- Numeric value of a string of decimal digits. -/
def natOfDigits (s : String) : Nat :=
  s.toList.foldl (fun a c => a * 10 + (c.toNat - 48)) 0

/-! ### Calendar arithmetic (embedding of the datetime library functions the
source calls: strptime with the format string for year-month-day, date
subtraction, and the days field of the resulting timedelta) -/

/-- Gregorian leap-year test, as in the datetime module. -/
def isLeapYear (y : Nat) : Bool :=
  (y % 4 == 0 && y % 100 != 0) || y % 400 == 0

/-- Number of days in a month of a given year, as in the datetime module. -/
def daysInMonth (y m : Nat) : Nat :=
  if m = 2 then (if isLeapYear y then 29 else 28)
  else if m = 4 ∨ m = 6 ∨ m = 9 ∨ m = 11 then 30
  else 31

/-- Days in all years strictly before year y (proleptic Gregorian calendar,
matching the ordinal computation of the datetime module). -/
def daysBeforeYear (y : Nat) : Nat :=
  (y - 1) * 365 + (y - 1) / 4 - (y - 1) / 100 + (y - 1) / 400

/-- Days in the months of year y strictly before month m. -/
def daysBeforeMonth (y m : Nat) : Nat :=
  (List.range m).foldl (fun a i => if 1 ≤ i then a + daysInMonth y i else a) 0

/-- Proleptic Gregorian ordinal of a date, with day 1 = January 1 of year 1,
matching the toordinal method of the datetime module. -/
def dateOrdinal (y m d : Nat) : Nat :=
  daysBeforeYear y + daysBeforeMonth y m + d

/-- Split a character list at every occurrence of the separator, with the
splitting semantics of the Python str.split method for a one-character
separator. -/
def splitOnChar (sep : Char) : List Char → List (List Char)
  | [] => [[]]
  | c :: rest =>
    let r := splitOnChar sep rest
    if c = sep then [] :: r
    else
      match r with
      | [] => [[c]]
      | h :: t => (c :: h) :: t

/-- Embedding of datetime.strptime with the year-month-day format: split on
the dash, require numeric components and a valid calendar date in years 1
to 9999. Returns the (year, month, day) triple. -/
def parseDateYMD (s : String) : Option (Nat × Nat × Nat) :=
  match (splitOnChar '-' s.toList).map (fun cs => (⟨cs⟩ : String)) with
  | [ys, ms, ds] =>
    if ys ≠ "" ∧ ms ≠ "" ∧ ds ≠ "" ∧ ys.length ≤ 4 ∧ ms.length ≤ 2 ∧ ds.length ≤ 2
        ∧ allDigits ys ∧ allDigits ms ∧ allDigits ds then
      let y := natOfDigits ys
      let m := natOfDigits ms
      let d := natOfDigits ds
      if 1 ≤ y ∧ 1 ≤ m ∧ m ≤ 12 ∧ 1 ≤ d ∧ d ≤ daysInMonth y m then
        some (y, m, d)
      else none
    else none
  | _ => none

/-- Seconds at midnight of a date, on the ordinal-day scale. The current
time now is expressed on the same scale. -/
def midnightSeconds (y m d : Nat) : Int :=
  (dateOrdinal y m d : Int) * 86400

/-- Embedding of the days-left computation of PrivateAdRecord: parse the
expiration date string and take the days field of the timedelta obtained by
subtracting the current time from midnight of the expiration date. The days
field of a Python timedelta is the floor of the difference in days. Returns
none when strptime raises ValueError. -/
def computeDaysLeft (expStr : String) (now : Int) : Option Int :=
  (parseDateYMD expStr).map fun ymd =>
    Int.fdiv (midnightSeconds ymd.1 ymd.2.1 ymd.2.2 - now) 86400

/-! ### SHA-256 (embedding of hashlib.sha256 over UTF-8 encoded input, used
by FeedRecord.generate_content_hash) -/

/-- UTF-8 encoding of one character as a list of byte values. -/
def utf8Char (c : Char) : List Nat :=
  let n := c.toNat
  if n < 128 then [n]
  else if n < 2048 then [192 + n / 64, 128 + n % 64]
  else if n < 65536 then [224 + n / 4096, 128 + (n / 64) % 64, 128 + n % 64]
  else [240 + n / 262144, 128 + (n / 4096) % 64, 128 + (n / 64) % 64, 128 + n % 64]

/-- UTF-8 encoding of a string as a list of byte values, the encoding the
source applies before hashing. -/
def utf8Encode (s : String) : List Nat :=
  (s.toList.map utf8Char).flatten

/-- Modulus for 32-bit words. -/
def w32 : Nat := 4294967296

/-- Right rotation of a 32-bit word by n bits. -/
def rotr32 (n x : Nat) : Nat :=
  ((x >>> n) ||| ((x <<< (32 - n)) % w32)) % w32

/-- Big-endian byte list (length k) of a natural number. -/
def beBytes : Nat → Nat → List Nat
  | 0, _ => []
  | k + 1, n => beBytes k (n / 256) ++ [n % 256]

/-- Split a list into consecutive chunks of size n. -/
def listChunks (n : Nat) (l : List Nat) : List (List Nat) :=
  if h : l = [] ∨ n = 0 then []
  else l.take n :: listChunks n (l.drop n)
  termination_by l.length
  decreasing_by
    simp only [List.length_drop]
    have hl : l ≠ [] := fun hc => h (Or.inl hc)
    have hn : n ≠ 0 := fun hc => h (Or.inr hc)
    have : 0 < l.length := List.length_pos.mpr hl
    omega

/-- SHA-256 round constants. -/
def sha256K : List Nat :=
  [1116352408, 1899447441, 3049323471, 3921009573, 961987163,
   1508970993, 2453635748, 2870763221, 3624381080, 310598401,
   607225278, 1426881987, 1925078388, 2162078206, 2614888103,
   3248222580, 3835390401, 4022224774, 264347078, 604807628,
   770255983, 1249150122, 1555081692, 1996064986, 2554220882,
   2821834349, 2952996808, 3210313671, 3336571891, 3584528711,
   113926993, 338241895, 666307205, 773529912, 1294757372,
   1396182291, 1695183700, 1986661051, 2177026350, 2456956037,
   2730485921, 2820302411, 3259730800, 3345764771, 3516065817,
   3600352804, 4094571909, 275423344, 430227734, 506948616,
   659060556, 883997877, 958139571, 1322822218, 1537002063,
   1747873779, 1955562222, 2024104815, 2227730452, 2361852424,
   2428436474, 2756734187, 3204031479, 3329325298]

/-- SHA-256 initial state. -/
def sha256Init : List Nat :=
  [1779033703, 3144134277, 1013904242, 2773480762,
   1359893119, 2600822924, 528734635, 1541459225]

/-- Next word of the SHA-256 message schedule, given the words so far. -/
def sha256NextW (w : List Nat) : Nat :=
  let n := w.length
  let w15 := w.getD (n - 15) 0
  let w2 := w.getD (n - 2) 0
  let w16 := w.getD (n - 16) 0
  let w7 := w.getD (n - 7) 0
  let s0 := rotr32 7 w15 ^^^ rotr32 18 w15 ^^^ (w15 >>> 3)
  let s1 := rotr32 17 w2 ^^^ rotr32 19 w2 ^^^ (w2 >>> 10)
  (w16 + s0 + w7 + s1) % w32

/-- One SHA-256 compression round. -/
def sha256Round (s : List Nat) (kw : Nat × Nat) : List Nat :=
  let a := s.getD 0 0
  let b := s.getD 1 0
  let c := s.getD 2 0
  let d := s.getD 3 0
  let e := s.getD 4 0
  let f := s.getD 5 0
  let g := s.getD 6 0
  let h := s.getD 7 0
  let s1 := rotr32 6 e ^^^ rotr32 11 e ^^^ rotr32 25 e
  let ch := (e &&& f) ^^^ ((e ^^^ (w32 - 1)) &&& g)
  let temp1 := (h + s1 + ch + kw.1 + kw.2) % w32
  let s0 := rotr32 2 a ^^^ rotr32 13 a ^^^ rotr32 22 a
  let maj := (a &&& b) ^^^ (a &&& c) ^^^ (b &&& c)
  let temp2 := (s0 + maj) % w32
  [(temp1 + temp2) % w32, a, b, c, (d + temp1) % w32, e, f, g]

/-- Interpret four bytes as one big-endian 32-bit word. -/
def beWord4 : List Nat → Nat
  | [a, b, c, d] => ((a * 256 + b) * 256 + c) * 256 + d
  | _ => 0

/-- Process one 64-byte block into the running SHA-256 state. -/
def sha256Block (st : List Nat) (block : List Nat) : List Nat :=
  let w0 := (listChunks 4 block).map beWord4
  let w := (List.range 48).foldl (fun acc _ => acc ++ [sha256NextW acc]) w0
  let fin := (sha256K.zip w).foldl sha256Round st
  (st.zip fin).map fun p => (p.1 + p.2) % w32

/-- SHA-256 padding: append the 0x80 byte, zero bytes up to 56 mod 64, and
the 8-byte big-endian bit length. -/
def sha256Pad (ms : List Nat) : List Nat :=
  let z := (56 + 64 - (ms.length + 1) % 64) % 64
  ms ++ [128] ++ List.replicate z 0 ++ beBytes 8 (ms.length * 8)

/-- SHA-256 digest of a byte list, as a list of 32 byte values. -/
def sha256 (ms : List Nat) : List Nat :=
  let final := ((listChunks 64 (sha256Pad ms)).foldl sha256Block sha256Init)
  (final.map (beBytes 4)).flatten

/-- Lowercase hexadecimal digit for a value below 16. -/
def hexDigit (n : Nat) : Char :=
  if n < 10 then Char.ofNat (48 + n) else Char.ofNat (87 + n)

/-- Lowercase hexadecimal rendering of a byte list. -/
def hexOfBytes (bs : List Nat) : String :=
  ⟨(bs.map fun b => [hexDigit (b / 16 % 16), hexDigit (b % 16)]).flatten⟩

/-- Embedding of hashlib.sha256(x.encode(utf8)).hexdigest() as used by
FeedRecord.generate_content_hash. -/
def sha256HexOfString (s : String) : String :=
  hexOfBytes (sha256 (utf8Encode s))

/-! ### Record model (HomeTask10.py, classes FeedRecord, NewsRecord,
PrivateAdRecord, WeatherAlertRecord) -/

/-- Capture-time timestamp of a record, kept in both renderings the source
derives from the one datetime value: isoformat for the database row and the
strftime display form for publication. -/
structure Timestamp where
  iso : String
  display : String
deriving DecidableEq

/-- The closed set of record variants with their fields. A PrivateAdRecord
additionally carries the lazily parsed expiration date (None until one of the
deriving paths runs) and the days-left counter initialised to 0. -/
inductive FeedRecord where
  | news (text city : String) (timestamp : Timestamp)
  | privateAd (text expirationDateStr : String)
      (expirationDate : Option (Nat × Nat × Nat)) (daysLeft : Int)
      (timestamp : Timestamp)
  | weatherAlert (text severity location alertId : String) (timestamp : Timestamp)
deriving DecidableEq

/-- Text body of a record; the base constructor stores it stripped. -/
def recordText : FeedRecord → String
  | .news t _ _ => t
  | .privateAd t _ _ _ _ => t
  | .weatherAlert t _ _ _ _ => t

/-- Embedding of NewsRecord.__init__ (via FeedRecord.__init__, which strips
the text). -/
def mkNewsRecord (ts : Timestamp) (text city : String) : FeedRecord :=
  .news (pyStrip text) city ts

/-- Embedding of PrivateAdRecord.__init__: expiration date not yet parsed,
days_left initialised to 0. -/
def mkPrivateAdRecord (ts : Timestamp) (text expirationDateStr : String) : FeedRecord :=
  .privateAd (pyStrip text) expirationDateStr none 0 ts

/-- Embedding of WeatherAlertRecord.__init__: the alert identifier is the
fixed prefix WA- followed by the four randomly drawn characters, which are
passed in explicitly (external randomness). -/
def mkWeatherAlertRecord (ts : Timestamp) (alertChars : String)
    (text severity location : String) : FeedRecord :=
  .weatherAlert (pyStrip text) severity location ("WA-" ++ alertChars) ts

/-- Embedding of get_duplicate_check_fields of each variant. -/
def getDuplicateCheckFields : FeedRecord → List String
  | .news _ _ _ => ["text", "city"]
  | .privateAd _ _ _ _ _ => ["text", "expiration_date"]
  | .weatherAlert _ _ _ _ _ => ["text", "severity", "location"]

/-- Days-left value that PrivateAdRecord.get_database_data stores in its row:
when the expiration date was not parsed yet and the string is non-empty it
recomputes days_left from the current time, keeping the old value when
strptime fails. -/
def privateAdDbDaysLeft (now : Int) (expStr : String)
    (expParsed : Option (Nat × Nat × Nat)) (daysLeft : Int) : Int :=
  match expParsed with
  | some _ => daysLeft
  | none =>
    if expStr ≠ "" then
      match computeDaysLeft expStr now with
      | some d => d
      | none => daysLeft
    else daysLeft

/-- The column-to-value pairs each variant places in its database dictionary
before the final content_hash entry, in source order. -/
def baseDatabaseData (now : Int) : FeedRecord → List (String × String)
  | .news t c ts => [("text", t), ("city", c), ("timestamp", ts.iso)]
  | .privateAd t e ep dl ts =>
      [("text", t), ("expiration_date", e),
       ("days_left", toString (privateAdDbDaysLeft now e ep dl)),
       ("timestamp", ts.iso)]
  | .weatherAlert t s l aid ts =>
      [("text", t), ("severity", s), ("location", l), ("alert_id", aid),
       ("timestamp", ts.iso)]

/-- Concatenation of the duplicate-check field values found in the database
dictionary, in field-list order; a field absent from the dictionary
contributes nothing. This is the string generate_content_hash hashes. -/
def hashContentOf (fields : List String) (dbData : List (String × String)) : String :=
  fields.foldl
    (fun acc f =>
      match dbData.lookup f with
      | some v => acc ++ v
      | none => acc) ""

mutual

/-- Embedding of get_database_data of each variant. In the source this
method builds its dictionary by calling generate_content_hash for the final
content_hash entry; the two methods are therefore mutually recursive with no
base case. The fuel parameter counts remaining interpreter stack frames:
result none is the RecursionError raised when the frames run out. -/
def getDatabaseData (fuel : Nat) (now : Int) (r : FeedRecord) :
    Option (List (String × String)) :=
  match fuel with
  | 0 => none
  | Nat.succ f =>
    match generateContentHash f now r with
    | none => none
    | some h => some (baseDatabaseData now r ++ [("content_hash", h)])

/-- Embedding of FeedRecord.generate_content_hash: collect the duplicate
check fields, call get_database_data, concatenate the check-field values and
hash the concatenation with SHA-256. Mutually recursive with
getDatabaseData, with fuel as for getDatabaseData. -/
def generateContentHash (fuel : Nat) (now : Int) (r : FeedRecord) : Option String :=
  match fuel with
  | 0 => none
  | Nat.succ f =>
    match getDatabaseData f now r with
    | none => none
    | some dbData =>
      some (sha256HexOfString (hashContentOf (getDuplicateCheckFields r) dbData))

end

/-! ### Parser environment -/

/-- External nondeterminism consumed during record construction: the capture
timestamp (datetime.now) and the four randomly drawn characters of the
weather-alert identifier. Modelled as parameters; no verified property
depends on their values. -/
structure ParseEnv where
  ts : Timestamp
  alertChars : String
deriving DecidableEq

/-- Errors of the parsing layer. In the source these are the ValueError
raised for a missing or empty required field, the KeyError raised by the
record-type mapping lookup for an unsupported variant tag, and the
ValueError or AttributeError raised for an envelope of the wrong shape. -/
inductive ParseError where
  | missingField (field : String)
  | unsupportedType
  | invalidFormat
deriving DecidableEq

/-- The variant tags the record_type_mapping dictionaries support. -/
def recordTypeSupported (ty : String) : Bool :=
  ty == "news" || ty == "private_ad" || ty == "weather_alert"

/-! ### JSON decoding (HomeTask10.py, JSONFileProcessor and the from_json_data
class methods). The already decoded JSON tree is modelled by JVal; field
payload values are modelled as strings, the only payload type the decoders
are written for. -/

/-- A decoded JSON value: a string, an object or an array. -/
inductive JVal where
  | jstr (s : String)
  | jobj (fields : List (String × JVal))
  | jarr (elems : List JVal)

/-- Value of record_info.get applied for the type key followed by the lower
call: missing key defaults to the empty string; a non-string value raises
when lower is applied to it. -/
def jTypeField (fields : List (String × JVal)) : Except ParseError String :=
  match fields.lookup "type" with
  | none => .ok ""
  | some (JVal.jstr s) => .ok s
  | some _ => .error .invalidFormat

/-- Value of record_info.get applied for the data key: missing key defaults
to the empty dictionary; a non-object value raises once from_json_data
treats it as a dictionary. -/
def jDataField (fields : List (String × JVal)) : Except ParseError (List (String × JVal)) :=
  match fields.lookup "data" with
  | none => .ok []
  | some (JVal.jobj fs) => .ok fs
  | some _ => .error .invalidFormat

/-- Value of data.get for one payload field: missing key defaults to the
empty string. -/
def jFieldStr (data : List (String × JVal)) (key : String) : Except ParseError String :=
  match data.lookup key with
  | none => .ok ""
  | some (JVal.jstr s) => .ok s
  | some _ => .error .invalidFormat

/-- Embedding of NewsRecord.from_json_data: extract text and city, reject an
empty (falsy) value of either, then construct the record. -/
def newsFromJsonData (ts : Timestamp) (data : List (String × JVal)) :
    Except ParseError FeedRecord :=
  match jFieldStr data "text", jFieldStr data "city" with
  | .error e, _ => .error e
  | _, .error e => .error e
  | .ok text, .ok city =>
    if text = "" then .error (.missingField "text")
    else if city = "" then .error (.missingField "city")
    else .ok (mkNewsRecord ts text city)

/-- Embedding of PrivateAdRecord.from_json_data. -/
def privateAdFromJsonData (ts : Timestamp) (data : List (String × JVal)) :
    Except ParseError FeedRecord :=
  match jFieldStr data "text", jFieldStr data "expiration_date" with
  | .error e, _ => .error e
  | _, .error e => .error e
  | .ok text, .ok expd =>
    if text = "" then .error (.missingField "text")
    else if expd = "" then .error (.missingField "expiration_date")
    else .ok (mkPrivateAdRecord ts text expd)

/-- Embedding of WeatherAlertRecord.from_json_data. -/
def weatherAlertFromJsonData (env : ParseEnv) (data : List (String × JVal)) :
    Except ParseError FeedRecord :=
  match jFieldStr data "text", jFieldStr data "severity", jFieldStr data "location" with
  | .error e, _, _ => .error e
  | _, .error e, _ => .error e
  | _, _, .error e => .error e
  | .ok text, .ok severity, .ok location =>
    if text = "" then .error (.missingField "text")
    else if severity = "" then .error (.missingField "severity")
    else if location = "" then .error (.missingField "location")
    else .ok (mkWeatherAlertRecord env.ts env.alertChars text severity location)

/-- Dispatch to the from_json_data class method of the record class the
record_type_mapping lookup selected. -/
def fromJsonDataFor (env : ParseEnv) (ty : String) (data : List (String × JVal)) :
    Except ParseError FeedRecord :=
  if ty = "news" then newsFromJsonData env.ts data
  else if ty = "private_ad" then privateAdFromJsonData env.ts data
  else if ty = "weather_alert" then weatherAlertFromJsonData env data
  else .error .unsupportedType

/-- Body of one iteration of the record loop of _parse_json_records (the
single-record branch duplicates the same lines inline): read the type tag,
look it up in record_type_mapping (KeyError for an unsupported tag), then
decode the data payload with the from_json_data of the selected class. -/
def parseJsonEntry (env : ParseEnv) (e : JVal) : Except ParseError FeedRecord :=
  match e with
  | JVal.jobj fields =>
    match jTypeField fields with
    | .error err => .error err
    | .ok tyRaw =>
      let ty := pyLower tyRaw
      if recordTypeSupported ty then
        match jDataField fields with
        | .error err => .error err
        | .ok data => fromJsonDataFor env ty data
      else .error .unsupportedType
  | _ => .error .invalidFormat

/-- Successful results of a list of per-entry outcomes, in order. -/
def collectOks {ε α : Type} (rs : List (Except ε α)) : List α :=
  rs.filterMap fun r =>
    match r with
    | .ok a => some a
    | .error _ => none

/-- Embedding of JSONFileProcessor._parse_json_records: a records array is
processed entry by entry with each per-entry failure caught, reported and
skipped; an object with type and data keys is a single envelope whose
failure yields an empty result; any other shape raises ValueError. -/
def parseJsonRecords (env : ParseEnv) (j : JVal) : Except ParseError (List FeedRecord) :=
  match j with
  | JVal.jobj fields =>
    match fields.lookup "records" with
    | some (JVal.jarr entries) => .ok (collectOks (entries.map (parseJsonEntry env)))
    | some _ => .error .invalidFormat
    | none =>
      if (fields.lookup "type").isSome ∧ (fields.lookup "data").isSome then
        match parseJsonEntry env (JVal.jobj fields) with
        | .ok r => .ok [r]
        | .error _ => .ok []
      else .error .invalidFormat
  | _ => .error .invalidFormat

/-! ### XML decoding (HomeTask10.py, XMLFileProcessor and the
from_xml_element class methods) -/

/-- A parsed XML element: tag, attributes, child elements and text content. -/
inductive XmlElem where
  | mk (tag : String) (attrs : List (String × String)) (children : List XmlElem)
      (text : Option String)

/-- Tag of an element. -/
def XmlElem.tag : XmlElem → String
  | .mk t _ _ _ => t

/-- Attributes of an element. -/
def XmlElem.attrs : XmlElem → List (String × String)
  | .mk _ a _ _ => a

/-- Child elements of an element. -/
def XmlElem.children : XmlElem → List XmlElem
  | .mk _ _ c _ => c

/-- Text content of an element. -/
def XmlElem.text : XmlElem → Option String
  | .mk _ _ _ t => t

/-- Embedding of Element.find: the first direct child with the given tag. -/
def xmlFind (el : XmlElem) (t : String) : Option XmlElem :=
  el.children.find? fun c => c.tag == t

/-- Embedding of Element.get with an empty-string default. -/
def xmlGetAttr (el : XmlElem) (key : String) : String :=
  match el.attrs.lookup key with
  | some v => v
  | none => ""

/-- Truthy text of the child with the given tag: the checks of the form
child is None or not child.text collapse to this option being none. -/
def xmlChildText (el : XmlElem) (t : String) : Option String :=
  match xmlFind el t with
  | none => none
  | some c =>
    match c.text with
    | none => none
    | some s => if s = "" then none else some s

/-- Embedding of NewsRecord.from_xml_element. -/
def newsFromXmlElement (ts : Timestamp) (el : XmlElem) : Except ParseError FeedRecord :=
  match xmlChildText el "text" with
  | none => .error (.missingField "text")
  | some t =>
    match xmlChildText el "city" with
    | none => .error (.missingField "city")
    | some c => .ok (mkNewsRecord ts (pyStrip t) (pyStrip c))

/-- Embedding of PrivateAdRecord.from_xml_element. -/
def privateAdFromXmlElement (ts : Timestamp) (el : XmlElem) : Except ParseError FeedRecord :=
  match xmlChildText el "text" with
  | none => .error (.missingField "text")
  | some t =>
    match xmlChildText el "expiration_date" with
    | none => .error (.missingField "expiration_date")
    | some e => .ok (mkPrivateAdRecord ts (pyStrip t) (pyStrip e))

/-- Embedding of WeatherAlertRecord.from_xml_element. -/
def weatherAlertFromXmlElement (env : ParseEnv) (el : XmlElem) : Except ParseError FeedRecord :=
  match xmlChildText el "text" with
  | none => .error (.missingField "text")
  | some t =>
    match xmlChildText el "severity" with
    | none => .error (.missingField "severity")
    | some s =>
      match xmlChildText el "location" with
      | none => .error (.missingField "location")
      | some l =>
        .ok (mkWeatherAlertRecord env.ts env.alertChars (pyStrip t) (pyStrip s) (pyStrip l))

/-- Dispatch to the from_xml_element class method of the selected class. -/
def fromXmlElementFor (env : ParseEnv) (ty : String) (el : XmlElem) :
    Except ParseError FeedRecord :=
  if ty = "news" then newsFromXmlElement env.ts el
  else if ty = "private_ad" then privateAdFromXmlElement env.ts el
  else if ty = "weather_alert" then weatherAlertFromXmlElement env el
  else .error .unsupportedType

/-- Body of one iteration of the record loop of _parse_xml_records: read the
type attribute, look it up in record_type_mapping (KeyError for an
unsupported tag), then decode with the from_xml_element of that class. -/
def parseXmlEntry (env : ParseEnv) (el : XmlElem) : Except ParseError FeedRecord :=
  let ty := pyLower (xmlGetAttr el "type")
  if recordTypeSupported ty then fromXmlElementFor env ty el
  else .error .unsupportedType

/-- Embedding of XMLFileProcessor._parse_xml_records: a records root is
processed record child by record child with each per-entry failure caught,
reported and skipped; a record root is a single envelope whose failure
yields an empty result; any other root raises ValueError. -/
def parseXmlRecords (env : ParseEnv) (root : XmlElem) : Except ParseError (List FeedRecord) :=
  if root.tag = "records" then
    let entries := root.children.filter fun c => c.tag == "record"
    .ok (collectOks (entries.map (parseXmlEntry env)))
  else if root.tag = "record" then
    match parseXmlEntry env root with
    | .ok r => .ok [r]
    | .error _ => .ok []
  else .error .invalidFormat

/-! ### Persistence store (HomeTask10.py, DatabaseManager) -/

/-- The three variant tables of the store. A row is the column-to-value list
of the inserted record dictionary; rows are kept in rowid (insertion) order.
Every table carries a UNIQUE constraint on the content_hash column. -/
structure Database where
  news : List (List (String × String))
  privateAd : List (List (String × String))
  weatherAlert : List (List (String × String))

/-- The empty store, as created by initialize_database. -/
def emptyDatabase : Database :=
  { news := [], privateAd := [], weatherAlert := [] }

/-- Table selected by get_table_name_for_record. -/
def tableFor (db : Database) : FeedRecord → List (List (String × String))
  | .news _ _ _ => db.news
  | .privateAd _ _ _ _ _ => db.privateAd
  | .weatherAlert _ _ _ _ _ => db.weatherAlert

/-- Append a row to the table of the record variant. -/
def insertRow (db : Database) (r : FeedRecord) (row : List (String × String)) : Database :=
  match r with
  | .news _ _ _ => { db with news := db.news ++ [row] }
  | .privateAd _ _ _ _ _ => { db with privateAd := db.privateAd ++ [row] }
  | .weatherAlert _ _ _ _ _ => { db with weatherAlert := db.weatherAlert ++ [row] }

/-- Embedding of DatabaseManager.check_duplicate: compute the content hash
and test whether any row of the variant table carries it. The enclosing
try block catches every exception and returns False, so a hash computation
that dies with RecursionError (fuel exhaustion, result none) yields False. -/
def checkDuplicate (fuel : Nat) (now : Int) (db : Database) (r : FeedRecord) : Bool :=
  match generateContentHash fuel now r with
  | none => false
  | some h => (tableFor db r).any fun row => row.lookup "content_hash" == some h

/-- Embedding of DatabaseManager.save_record: early-exit on the duplicate
pre-check, then build the record dictionary and insert it, with the UNIQUE
constraint on content_hash rejecting a row whose hash is already present
(sqlite3.IntegrityError, caught, returns False). The enclosing try block
catches every other exception and returns False, so a get_database_data
call that dies with RecursionError (result none) yields False with the
store unchanged. -/
def saveRecord (fuel : Nat) (now : Int) (db : Database) (r : FeedRecord) :
    Bool × Database :=
  if checkDuplicate fuel now db r then (false, db)
  else
    match getDatabaseData fuel now r with
    | none => (false, db)
    | some rowData =>
      if (tableFor db r).any
          (fun row => row.lookup "content_hash" == rowData.lookup "content_hash") then
        (false, db)
      else
        (true, insertRow db r rowData)

/-! ### Publisher (HomeTask10.py, EnhancedNewsFeedManager) -/

/-- Embedding of format_for_publication of each variant. A private ad whose
expiration date was not parsed yet first derives it: a non-empty date string
is parsed (an unparsable one raises ValueError, modelled none), an empty one
falls back to blocking interactive input (also modelled none, the
non-returning case); a weather alert with an empty severity or location
likewise falls back to interactive input. -/
def formatForPublication (now : Int) : FeedRecord → Option String
  | .news t c ts =>
      some ("News -------------------------\n" ++ t ++ "\n" ++ c ++ ", "
        ++ ts.display ++ "\n\n")
  | .privateAd t e ep dl _ =>
      match ep with
      | some _ =>
          some ("Private Ad -------------------\n" ++ t ++ "\nActual until: "
            ++ e ++ ", " ++ toString dl ++ " days left\n\n")
      | none =>
        if e ≠ "" then
          match computeDaysLeft e now with
          | some d =>
              some ("Private Ad -------------------\n" ++ t ++ "\nActual until: "
                ++ e ++ ", " ++ toString d ++ " days left\n\n")
          | none => none
        else none
  | .weatherAlert t s l aid ts =>
      if s ≠ "" ∧ l ≠ "" then
        some ("Weather Alert ----------------\nAlert ID: " ++ aid
          ++ "\nSeverity: " ++ s ++ "\n" ++ t ++ "\nLocation: " ++ l ++ ", "
          ++ ts.display ++ "\n\n")
      else none

/-- State the publisher acts on: the store and the append-only news-feed
log file, modelled as the list of appended blocks. -/
structure ManagerState where
  db : Database
  feedFile : List String

/-- Embedding of EnhancedNewsFeedManager.append_to_file. -/
def appendToFile (st : ManagerState) (content : String) : ManagerState :=
  { st with feedFile := st.feedFile ++ [content] }

/-- Embedding of EnhancedNewsFeedManager.publish_record: with database
saving enabled, a save_record failure returns False before any file write;
otherwise the record is rendered and appended to the log file. An exception
while rendering is caught and yields False. -/
def publishRecord (fuel : Nat) (now : Int) (st : ManagerState) (r : FeedRecord)
    (saveToDatabase : Bool) : Bool × ManagerState :=
  if saveToDatabase then
    match saveRecord fuel now st.db r with
    | (false, db1) => (false, { st with db := db1 })
    | (true, db1) =>
      match formatForPublication now r with
      | none => (false, { st with db := db1 })
      | some content => (true, appendToFile { st with db := db1 } content)
  else
    match formatForPublication now r with
    | none => (false, st)
    | some content => (true, appendToFile st content)

/-! ### City coordinate store (Final.py, CityDistanceCalculator) -/

/-- One row of the cities table. Coordinates are modelled as rationals; the
comparisons and equalities the claims involve are exact on the stored
values. -/
structure CityRow where
  name : String
  latitude : ℚ
  longitude : ℚ
  country : String
deriving DecidableEq

/-- Embedding of get_city_coordinates: the first row (in rowid order) whose
name matches the query under the SQLite LOWER function on both sides. -/
def getCityCoordinates (cities : List CityRow) (cityName : String) :
    Option (ℚ × ℚ) :=
  match cities.find? (fun row => pyLower row.name == pyLower cityName) with
  | some row => some (row.latitude, row.longitude)
  | none => none

/-- Embedding of save_city_coordinates: reject an out-of-range latitude or
longitude before touching the store; otherwise run INSERT OR REPLACE, which
on a conflict with the UNIQUE constraint on name (binary, case-sensitive
comparison) deletes the conflicting row and appends the replacement with a
fresh rowid. -/
def saveCityCoordinates (cities : List CityRow) (cityName : String)
    (latitude longitude : ℚ) (country : String) : Bool × List CityRow :=
  if ¬(-90 ≤ latitude ∧ latitude ≤ 90) then (false, cities)
  else if ¬(-180 ≤ longitude ∧ longitude ≤ 180) then (false, cities)
  else
    (true, cities.filter (fun row => row.name != cityName)
      ++ [⟨cityName, latitude, longitude, country⟩])

/-! ### Sample values used by concrete theorems and witnesses -/

/-- Tests whether a per-record outcome succeeded. -/
def exceptIsOk {ε α : Type} : Except ε α → Bool
  | .ok _ => true
  | .error _ => false

/-- A concrete capture timestamp. -/
def sampleTs : Timestamp :=
  ⟨"2026-01-01T09:00:00", "2026-01-01 09:00"⟩

/-- A concrete parse environment. -/
def sampleEnv : ParseEnv :=
  ⟨sampleTs, "AB12"⟩

/-- A concrete news record, as built by NewsRecord.__init__. -/
def sampleNews : FeedRecord :=
  mkNewsRecord sampleTs "Fire downtown" "Springfield"

/-- A concrete private ad record. -/
def sampleAd : FeedRecord :=
  mkPrivateAdRecord sampleTs "Sale" "2099-01-01"

/-- A concrete weather alert record. -/
def sampleAlert : FeedRecord :=
  mkWeatherAlertRecord sampleTs "AB12" "Storm approaching" "High" "Springfield"

/-- The initial publisher state: fresh store, empty log file. -/
def initialState : ManagerState :=
  ⟨emptyDatabase, []⟩

/-- The markup input of the private-ad example: a single record envelope of
type private_ad with text Sale and expiration date 2099-01-01. -/
def c8input : XmlElem :=
  XmlElem.mk "record" [("type", "private_ad")]
    [XmlElem.mk "text" [] [] (some "Sale"),
     XmlElem.mk "expiration_date" [] [] (some "2099-01-01")]
    none

/-- A concrete JSON batch: three entries, the middle one with an unsupported
variant tag. -/
def sampleJsonBatch : List JVal :=
  [JVal.jobj [("type", JVal.jstr "news"),
     ("data", JVal.jobj [("text", JVal.jstr "Fire downtown"), ("city", JVal.jstr "Springfield")])],
   JVal.jobj [("type", JVal.jstr "blog"),
     ("data", JVal.jobj [("text", JVal.jstr "Hello")])],
   JVal.jobj [("type", JVal.jstr "private_ad"),
     ("data", JVal.jobj [("text", JVal.jstr "Sale"), ("expiration_date", JVal.jstr "2099-01-01")])]]

/-- A concrete XML batch: three record children, the middle one missing its
required city element. -/
def sampleXmlBatch : List XmlElem :=
  [XmlElem.mk "record" [("type", "news")]
     [XmlElem.mk "text" [] [] (some "Fire downtown"),
      XmlElem.mk "city" [] [] (some "Springfield")] none,
   XmlElem.mk "record" [("type", "news")]
     [XmlElem.mk "text" [] [] (some "No city here")] none,
   XmlElem.mk "record" [("type", "private_ad")]
     [XmlElem.mk "text" [] [] (some "Sale"),
      XmlElem.mk "expiration_date" [] [] (some "2099-01-01")] none]

/-- A concrete cities table with one stored row. -/
def sampleCities : List CityRow :=
  [⟨"London", 51, 0, "UK"⟩]

/-! ### Helper lemmas -/

/-- Each rung of the mutual recursion between generate_content_hash and
get_database_data consumes one stack frame and there is no base case, so at
every recursion budget both methods run out of frames: the computation
always ends in RecursionError. -/
theorem generateContentHash_none (fuel : Nat) (now : Int) (r : FeedRecord) :
    generateContentHash fuel now r = none ∧ getDatabaseData fuel now r = none := by
  induction fuel with
  | zero =>
    exact ⟨by rw [generateContentHash], by rw [getDatabaseData]⟩
  | succ f ih =>
    refine ⟨?_, ?_⟩
    · rw [generateContentHash, ih.2]
    · rw [getDatabaseData, ih.1]

/-- The result of save_record is either a failure with the store untouched
or a success that appends the record row to its variant table. -/
theorem saveRecord_cases (fuel : Nat) (now : Int) (db : Database) (r : FeedRecord) :
    saveRecord fuel now db r = (false, db) ∨
    ∃ row, getDatabaseData fuel now r = some row ∧
      saveRecord fuel now db r = (true, insertRow db r row) := by
  unfold saveRecord
  split
  · exact Or.inl rfl
  · cases hgd : getDatabaseData fuel now r with
    | none => exact Or.inl rfl
    | some rowData =>
      by_cases hany : ((tableFor db r).any
          fun row => List.lookup "content_hash" row == List.lookup "content_hash" rowData) = true
      · simp only [if_pos hany]
        exact Or.inl trivial
      · simp only [if_neg hany]
        exact Or.inr ⟨rowData, hgd ▸ rfl, rfl⟩

/-- A save_record call that reports failure leaves the store untouched. -/
theorem saveRecord_false_eq (fuel : Nat) (now : Int) (db : Database) (r : FeedRecord)
    (h : (saveRecord fuel now db r).1 = false) :
    saveRecord fuel now db r = (false, db) := by
  rcases saveRecord_cases fuel now db r with heq | ⟨row, _, heq⟩
  · exact heq
  · rw [heq] at h
    simp at h

/-- A list of outcomes with no failure keeps all its elements. -/
theorem collectOks_length_all_ok {ε α : Type} (rs : List (Except ε α))
    (h : ∀ j (hj : j < rs.length), exceptIsOk (rs.get ⟨j, hj⟩) = true) :
    (collectOks rs).length = rs.length := by
  induction rs with
  | nil => rfl
  | cons r rest ih =>
    have h0 : exceptIsOk r = true := h 0 (by simp)
    cases r with
    | error e => simp [exceptIsOk] at h0
    | ok a =>
      have hstep : (collectOks (Except.ok a :: rest)) = a :: collectOks rest := rfl
      rw [hstep]
      simp only [List.length_cons]
      rw [ih fun j hj => h (j + 1) (Nat.succ_lt_succ hj)]

/-- A list of outcomes whose only failure sits at index k keeps all other
elements. -/
theorem collectOks_length_one_error {ε α : Type} (rs : List (Except ε α)) (k : Nat)
    (hk : k < rs.length)
    (hbad : exceptIsOk (rs.get ⟨k, hk⟩) = false)
    (hok : ∀ j (hj : j < rs.length), j ≠ k → exceptIsOk (rs.get ⟨j, hj⟩) = true) :
    (collectOks rs).length = rs.length - 1 := by
  induction rs generalizing k with
  | nil => exact absurd hk (by simp)
  | cons r rest ih =>
    cases k with
    | zero =>
      cases r with
      | ok a => simp [exceptIsOk] at hbad
      | error e =>
        have hstep : (collectOks (Except.error e :: rest)) = collectOks rest := rfl
        rw [hstep]
        simp only [List.length_cons, Nat.add_sub_cancel]
        exact collectOks_length_all_ok rest fun j hj =>
          hok (j + 1) (Nat.succ_lt_succ hj) (by omega)
    | succ k1 =>
      have h0 : exceptIsOk r = true := hok 0 (by simp) (by omega)
      cases r with
      | error e => simp [exceptIsOk] at h0
      | ok a =>
        have hstep : (collectOks (Except.ok a :: rest)) = a :: collectOks rest := rfl
        rw [hstep]
        have hk1 : k1 < rest.length := Nat.lt_of_succ_lt_succ hk
        have hlen := ih k1 hk1 hbad
          (fun j hj hne => hok (j + 1) (Nat.succ_lt_succ hj) (by omega))
        simp only [List.length_cons]
        rw [hlen]
        omega

/-- A successful outcome appears among the collected successes. -/
theorem mem_collectOks_of_get {ε α : Type} (rs : List (Except ε α)) (j : Nat)
    (hj : j < rs.length) (a : α) (h : rs.get ⟨j, hj⟩ = .ok a) :
    a ∈ collectOks rs := by
  have hmem : Except.ok a ∈ rs := h ▸ rs.get_mem j hj
  unfold collectOks
  exact List.mem_filterMap.mpr ⟨Except.ok a, hmem, rfl⟩
/-! ### String facts used by the amended C6 claim -/

theorem all_of_dropWhile_all {l : List Char}
    (h : ∀ x ∈ l.dropWhile isPySpace, isPySpace x = true) :
    ∀ x ∈ l, isPySpace x = true := by
  intro x hx
  rw [← List.takeWhile_append_dropWhile (p := isPySpace) (l := l)] at hx
  rcases List.mem_append.mp hx with hx | hx
  · exact List.mem_takeWhile_imp hx
  · exact h x hx

theorem pyStrip_eq_empty_iff (s : String) :
    pyStrip s = "" ↔ s.toList.all isPySpace = true := by
  constructor
  · intro h
    have hlist : ((s.toList.dropWhile isPySpace).reverse.dropWhile isPySpace).reverse = [] :=
      congrArg String.data h
    rw [List.reverse_eq_nil_iff] at hlist
    have h2 : ∀ x ∈ (s.toList.dropWhile isPySpace).reverse, isPySpace x = true := by
      rw [List.dropWhile_eq_nil_iff] at hlist
      exact hlist
    have h3 : ∀ x ∈ s.toList.dropWhile isPySpace, isPySpace x = true := by
      intro x hx
      exact h2 x (List.mem_reverse.mpr hx)
    rw [List.all_eq_true]
    exact all_of_dropWhile_all h3
  · intro h
    rw [List.all_eq_true] at h
    unfold pyStrip
    have h1 : s.toList.dropWhile isPySpace = [] :=
      List.dropWhile_eq_nil_iff.mpr fun x hx => h x hx
    rw [h1]
    rfl

/-! ### List counting facts used by C10 -/

theorem cities_filter_length (l : List CityRow) (cn : String) :
    ((l.filter fun row => row.name != cn).length
      + l.countP fun row => row.name == cn) = l.length := by
  induction l with
  | nil => rfl
  | cons r rest ih =>
    by_cases hr : (r.name == cn) = true
    · have hr2 : ¬((r.name != cn) = true) := by simp [bne, hr]
      rw [@List.filter_cons_of_neg _ (fun row => row.name != cn) r rest hr2,
        List.countP_cons_of_pos (fun row => row.name == cn) rest hr, List.length_cons]
      omega
    · have hr0 : (r.name == cn) = false := by simpa using hr
      have hr2 : (r.name != cn) = true := by simp [bne, hr0]
      rw [@List.filter_cons_of_pos _ (fun row => row.name != cn) r rest hr2,
        List.countP_cons_of_neg (fun row => row.name == cn) rest hr, List.length_cons, List.length_cons]
      omega

theorem cities_filter_ne_then_eq (l : List CityRow) (cn : String) :
    ((l.filter fun row => row.name != cn).filter fun row => row.name == cn) = [] := by
  induction l with
  | nil => rfl
  | cons r rest ih =>
    by_cases hr : (r.name == cn) = true
    · have hr2 : ¬((r.name != cn) = true) := by simp [bne, hr]
      rw [@List.filter_cons_of_neg _ (fun row => row.name != cn) r rest hr2]
      exact ih
    · have hr0 : (r.name == cn) = false := by simpa using hr
      have hr2 : (r.name != cn) = true := by simp [bne, hr0]
      rw [@List.filter_cons_of_pos _ (fun row => row.name != cn) r rest hr2,
        @List.filter_cons_of_neg _ (fun row => row.name == cn) r
          (List.filter (fun row => row.name != cn) rest) (by simp [hr0])]
      exact ih

/-! ### Claim theorems -/

/-- C1: the specification says generate_content_hash is a pure deterministic
function of the variant-specific field subset, yielding equal fingerprints
for equal field values. On the code this fails: generate_content_hash and
get_database_data call each other unconditionally, so the computation never
returns a fingerprint at any recursion budget and instead dies with
RecursionError for every record of every variant. -/
theorem C1_content_hash_never_returns (fuel : Nat) (now : Int) (r : FeedRecord) :
    generateContentHash fuel now r = none :=
  (generateContentHash_none fuel now r).1

/-- C2: the specification says computing the content hash terminates and
returns a SHA-256 hex digest with no error conditions. On the code this
fails for every variant: at every recursion budget the computation at the
concrete news, private-ad and weather-alert records exhausts its budget
(RecursionError) instead of returning a digest. -/
theorem C2_content_hash_has_no_normal_result (fuel : Nat) (now : Int) :
    generateContentHash fuel now sampleNews = none ∧
    generateContentHash fuel now sampleAd = none ∧
    generateContentHash fuel now sampleAlert = none :=
  ⟨(generateContentHash_none fuel now sampleNews).1,
   (generateContentHash_none fuel now sampleAd).1,
   (generateContentHash_none fuel now sampleAlert).1⟩

/-- C3: the specification says publishing a fresh record with persistence
enabled yields a published outcome and one stored row. On the code the very
first publish_record call already returns False and stores nothing: the
content-hash computation inside save_record dies with RecursionError (at
every recursion budget), the exception handlers turn that into a False
result, and publish_record then skips the file write as well, so the state
is completely unchanged and the News table stays empty rather than gaining
one row. -/
theorem C3_first_publish_already_fails (fuel : Nat) (now : Int) :
    publishRecord fuel now initialState sampleNews true = (false, initialState) ∧
    (publishRecord fuel now initialState sampleNews true).2.db.news = [] := by
  have h1 := (generateContentHash_none fuel now sampleNews).1
  have h2 := (generateContentHash_none fuel now sampleNews).2
  have hsave : saveRecord fuel now initialState.db sampleNews = (false, initialState.db) := by
    unfold saveRecord checkDuplicate
    rw [h1, h2]
    simp
  constructor
  · unfold publishRecord
    rw [if_pos rfl, hsave]
  · unfold publishRecord
    rw [if_pos rfl, hsave]
    rfl

/-- C5: whenever save_record reports failure (in particular a duplicate),
publish_record with database saving enabled returns False and performs no
further action: the store and the news-feed log file are both unchanged. -/
theorem C5_skip_leaves_file_unchanged (fuel : Nat) (now : Int) (st : ManagerState)
    (r : FeedRecord) (h : (saveRecord fuel now st.db r).1 = false) :
    publishRecord fuel now st r true = (false, st) := by
  have hsave := saveRecord_false_eq fuel now st.db r h
  unfold publishRecord
  rw [if_pos rfl, hsave]

/-- Witness for C5 at a concrete input: in the fresh store the save of the
sample news record reports failure, and publishing it leaves the state
unchanged. -/
theorem C5_witness :
    (saveRecord 3 0 initialState.db sampleNews).1 = false ∧
    publishRecord 3 0 initialState sampleNews true = (false, initialState) :=
  ⟨by decide, C5_skip_leaves_file_unchanged 3 0 initialState sampleNews (by decide)⟩

/-- C7: an envelope whose variant tag is not one of news, private_ad,
weather_alert fails with the unsupported-type error (the KeyError of the
record_type_mapping lookup) and contributes no record, in the JSON and the
XML parser alike; as a single top-level envelope it likewise yields an
empty record list. -/
theorem C7_unknown_tag_rejected (env : ParseEnv) (tag : String)
    (data : List (String × JVal)) (children : List XmlElem) (txt : Option String)
    (h : recordTypeSupported (pyLower tag) = false) :
    parseJsonEntry env (JVal.jobj [("type", JVal.jstr tag), ("data", JVal.jobj data)])
      = .error .unsupportedType ∧
    parseJsonRecords env (JVal.jobj [("type", JVal.jstr tag), ("data", JVal.jobj data)])
      = .ok [] ∧
    parseXmlEntry env (XmlElem.mk "record" [("type", tag)] children txt)
      = .error .unsupportedType ∧
    parseXmlRecords env (XmlElem.mk "record" [("type", tag)] children txt)
      = .ok [] := by
  have hj : parseJsonEntry env
      (JVal.jobj [("type", JVal.jstr tag), ("data", JVal.jobj data)])
      = .error .unsupportedType := by
    simp [parseJsonEntry, jTypeField, List.lookup, h]
  have hx : parseXmlEntry env (XmlElem.mk "record" [("type", tag)] children txt)
      = .error .unsupportedType := by
    simp [parseXmlEntry, xmlGetAttr, XmlElem.attrs, List.lookup, h]
  refine ⟨hj, ?_, hx, ?_⟩
  · simp [parseJsonRecords, List.lookup, hj]
  · simp [parseXmlRecords, XmlElem.tag, hx]

/-- Witness for C7 at the concrete unsupported tag blog. -/
theorem C7_witness :
    parseJsonRecords sampleEnv
      (JVal.jobj [("type", JVal.jstr "blog"), ("data", JVal.jobj [])]) = .ok [] ∧
    parseXmlRecords sampleEnv (XmlElem.mk "record" [("type", "blog")] [] none) = .ok [] :=
  ⟨(C7_unknown_tag_rejected sampleEnv "blog" [] [] none (by decide)).2.1,
   (C7_unknown_tag_rejected sampleEnv "blog" [] [] none (by decide)).2.2.2⟩

/-- C9: get_city_coordinates compares names under the SQLite LOWER function
on both sides, so for every stored row and every casing of the query string
the lookup returns the same stored coordinate pair, and the lookup of a
stored name succeeds. -/
theorem C9_lookup_case_insensitive (cities : List CityRow) (row : CityRow) (s : String)
    (hmem : row ∈ cities) (hcase : pyLower s = pyLower row.name) :
    getCityCoordinates cities s = getCityCoordinates cities row.name ∧
    (getCityCoordinates cities s).isSome = true := by
  have hfun : (fun r => pyLower r.name == pyLower s)
      = (fun r : CityRow => pyLower r.name == pyLower row.name) := by
    funext r
    rw [hcase]
  have hsome : (cities.find? fun r => pyLower r.name == pyLower row.name).isSome = true :=
    List.find?_isSome.mpr ⟨row, hmem, by simp⟩
  constructor
  · unfold getCityCoordinates
    rw [hfun]
  · unfold getCityCoordinates
    rw [hfun]
    cases hfind : cities.find? fun r : CityRow => pyLower r.name == pyLower row.name with
    | none => rw [hfind] at hsome; simp at hsome
    | some r2 => simp

/-- Witness for C9: in the sample table the lowercase query london returns
the same coordinates as London, and the lookup succeeds. -/
theorem C9_witness :
    getCityCoordinates sampleCities "london" = getCityCoordinates sampleCities "London" ∧
    (getCityCoordinates sampleCities "london").isSome = true :=
  C9_lookup_case_insensitive sampleCities ⟨"London", 51, 0, "UK"⟩ "london"
    (by simp [sampleCities]) (by decide)

/-- C10: save_city_coordinates rejects an out-of-range latitude or longitude
with result False and an untouched table, and for in-range coordinates with
an already stored name it runs INSERT OR REPLACE: result True, table size
unchanged, and the single row with that exact name now carries the new
coordinates. -/
theorem C10_save_validates_and_replaces (cities : List CityRow) (cn country : String)
    (lat lon : ℚ) :
    ((¬(-90 ≤ lat ∧ lat ≤ 90) ∨ ¬(-180 ≤ lon ∧ lon ≤ 180)) →
      saveCityCoordinates cities cn lat lon country = (false, cities)) ∧
    ((-90 ≤ lat ∧ lat ≤ 90) → (-180 ≤ lon ∧ lon ≤ 180) →
      (cities.countP fun row => row.name == cn) = 1 →
      (saveCityCoordinates cities cn lat lon country).1 = true ∧
      (saveCityCoordinates cities cn lat lon country).2.length = cities.length ∧
      ((saveCityCoordinates cities cn lat lon country).2.filter
        fun row => row.name == cn) = [⟨cn, lat, lon, country⟩]) := by
  constructor
  · intro hbad
    unfold saveCityCoordinates
    rcases hbad with hbad | hbad
    · rw [if_pos hbad]
    · by_cases hlat : ¬(-90 ≤ lat ∧ lat ≤ 90)
      · rw [if_pos hlat]
      · rw [if_neg hlat, if_pos hbad]
  · intro hlat hlon hcount
    unfold saveCityCoordinates
    rw [if_neg (not_not_intro hlat), if_neg (not_not_intro hlon)]
    refine ⟨rfl, ?_, ?_⟩
    · simp only [List.length_append, List.length_cons, List.length_nil]
      have hcf := cities_filter_length cities cn
      omega
    · rw [List.filter_append, cities_filter_ne_then_eq]
      simp

/-- Witness for C10: an out-of-range latitude is rejected with the table
unchanged, and an in-range save over the stored London row replaces it. -/
theorem C10_witness :
    saveCityCoordinates sampleCities "X" 100 0 "" = (false, sampleCities) ∧
    ((saveCityCoordinates sampleCities "London" 10 20 "UK").1 = true ∧
      (saveCityCoordinates sampleCities "London" 10 20 "UK").2.length
        = sampleCities.length ∧
      ((saveCityCoordinates sampleCities "London" 10 20 "UK").2.filter
        fun row => row.name == "London") = [⟨"London", 10, 20, "UK"⟩]) :=
  ⟨(C10_save_validates_and_replaces sampleCities "X" "" 100 0).1
      (Or.inl (by norm_num)),
   (C10_save_validates_and_replaces sampleCities "London" "UK" 10 20).2
      (by norm_num) (by norm_num) (by simp [sampleCities])⟩

/-- C8: parsing the single private_ad markup envelope with text Sale and
expiration date 2099-01-01 yields exactly one PrivateAd record carrying
those fields, and the days-left value the record derives from its
expiration date is strictly positive whenever the current time is at least
one full day before midnight of 2099-01-01. -/
theorem C8_private_ad_days_left_positive (env : ParseEnv) (now : Int)
    (hnow : now + 86400 ≤ midnightSeconds 2099 1 1) :
    parseXmlRecords env c8input
      = .ok [FeedRecord.privateAd "Sale" "2099-01-01" none 0 env.ts] ∧
    ∃ d, computeDaysLeft "2099-01-01" now = some d ∧ 0 < d := by
  constructor
  · rfl
  · refine ⟨Int.fdiv (midnightSeconds 2099 1 1 - now) 86400, ?_, ?_⟩
    · unfold computeDaysLeft
      rw [show parseDateYMD "2099-01-01" = some (2099, 1, 1) from rfl]
      rfl
    · rw [Int.fdiv_eq_ediv _ (by norm_num)]
      have h1 : (1 : Int) ≤ (midnightSeconds 2099 1 1 - now) / 86400 := by
        rw [Int.le_ediv_iff_mul_le (by norm_num)]
        omega
      omega

/-- Witness for C8 with the current time at midnight of 2026-01-01. -/
theorem C8_witness :
    parseXmlRecords sampleEnv c8input
      = .ok [FeedRecord.privateAd "Sale" "2099-01-01" none 0 sampleEnv.ts] ∧
    ∃ d, computeDaysLeft "2099-01-01" (midnightSeconds 2026 1 1) = some d ∧ 0 < d :=
  C8_private_ad_days_left_positive sampleEnv (midnightSeconds 2026 1 1) (by decide)

/-- The truthy child text extracted by the from_xml_element checks is never
the empty string. -/
theorem xmlChildText_ne_empty (el : XmlElem) (tg : String) (s : String)
    (h : xmlChildText el tg = some s) : s ≠ "" := by
  unfold xmlChildText at h
  cases hf : xmlFind el tg with
  | none => rw [hf] at h; cases h
  | some c =>
    rw [hf] at h
    have h2 : (match c.text with
        | none => none
        | some s0 => if s0 = "" then none else some s0) = some s := h
    cases hc : c.text with
    | none => rw [hc] at h2; cases h2
    | some s2 =>
      rw [hc] at h2
      have h3 : (if s2 = "" then none else some s2) = some s := h2
      by_cases hs : s2 = ""
      · rw [if_pos hs] at h3; cases h3
      · rw [if_neg hs] at h3
        cases h3
        exact hs

/-- Indexing into a mapped list. -/
theorem get_map_eq {α β : Type} (f : α → β) (l : List α) (j : Nat) (hj : j < l.length) :
    (l.map f).get ⟨j, by rw [List.length_map]; exact hj⟩ = f (l.get ⟨j, hj⟩) := by
  simp

/-- C6 counterexample: the structured-object news decoder accepts a payload
whose text is three spaces; the constructed record has an empty body after
trimming, refuting the claimed invariant. -/
theorem C6_counterexample :
    newsFromJsonData sampleTs [("text", JVal.jstr "   "), ("city", JVal.jstr "Paris")]
      = .ok (FeedRecord.news "" "Paris" sampleTs) ∧
    recordText (FeedRecord.news "" "Paris" sampleTs) = "" := by
  constructor
  · rfl
  · rfl

/-- C6 amended: a record accepted by a structured-object or markup-tree
decoder has a raw text value that is non-empty as a string, and its stored
body is the whitespace-trimmed raw text; the body is therefore empty after
trimming exactly when the accepted raw text was whitespace-only, as the
final component characterises. -/
theorem C6_accepted_text_nonempty_raw (ts : Timestamp) (env : ParseEnv)
    (data : List (String × JVal)) (el : XmlElem) :
    (∀ r, newsFromJsonData ts data = .ok r →
      ∃ s, jFieldStr data "text" = .ok s ∧ s ≠ "" ∧ recordText r = pyStrip s) ∧
    (∀ r, privateAdFromJsonData ts data = .ok r →
      ∃ s, jFieldStr data "text" = .ok s ∧ s ≠ "" ∧ recordText r = pyStrip s) ∧
    (∀ r, weatherAlertFromJsonData env data = .ok r →
      ∃ s, jFieldStr data "text" = .ok s ∧ s ≠ "" ∧ recordText r = pyStrip s) ∧
    (∀ r, newsFromXmlElement ts el = .ok r →
      ∃ s, xmlChildText el "text" = some s ∧ s ≠ "" ∧ recordText r = pyStrip (pyStrip s)) ∧
    (∀ r, privateAdFromXmlElement ts el = .ok r →
      ∃ s, xmlChildText el "text" = some s ∧ s ≠ "" ∧ recordText r = pyStrip (pyStrip s)) ∧
    (∀ r, weatherAlertFromXmlElement env el = .ok r →
      ∃ s, xmlChildText el "text" = some s ∧ s ≠ "" ∧ recordText r = pyStrip (pyStrip s)) ∧
    (∀ s : String, pyStrip s = "" ↔ s.toList.all isPySpace = true) := by
  refine ⟨?_, ?_, ?_, ?_, ?_, ?_, pyStrip_eq_empty_iff⟩
  · intro r h
    unfold newsFromJsonData at h
    cases ht : jFieldStr data "text" with
    | error e => rw [ht] at h; simp at h
    | ok text =>
      cases hc : jFieldStr data "city" with
      | error e => rw [ht, hc] at h; simp at h
      | ok city =>
        rw [ht, hc] at h
        by_cases htext : text = ""
        · simp [htext] at h
        · by_cases hcity : city = ""
          · simp [htext, hcity] at h
          · simp [htext, hcity] at h
            exact ⟨text, rfl, htext, by rw [← h]; rfl⟩
  · intro r h
    unfold privateAdFromJsonData at h
    cases ht : jFieldStr data "text" with
    | error e => rw [ht] at h; simp at h
    | ok text =>
      cases hc : jFieldStr data "expiration_date" with
      | error e => rw [ht, hc] at h; simp at h
      | ok expd =>
        rw [ht, hc] at h
        by_cases htext : text = ""
        · simp [htext] at h
        · by_cases hexp : expd = ""
          · simp [htext, hexp] at h
          · simp [htext, hexp] at h
            exact ⟨text, rfl, htext, by rw [← h]; rfl⟩
  · intro r h
    unfold weatherAlertFromJsonData at h
    cases ht : jFieldStr data "text" with
    | error e => rw [ht] at h; simp at h
    | ok text =>
      cases hs : jFieldStr data "severity" with
      | error e => rw [ht, hs] at h; simp at h
      | ok sev =>
        cases hl : jFieldStr data "location" with
        | error e => rw [ht, hs, hl] at h; simp at h
        | ok loc =>
          rw [ht, hs, hl] at h
          by_cases htext : text = ""
          · simp [htext] at h
          · by_cases hsev : sev = ""
            · simp [htext, hsev] at h
            · by_cases hloc : loc = ""
              · simp [htext, hsev, hloc] at h
              · simp [htext, hsev, hloc] at h
                exact ⟨text, rfl, htext, by rw [← h]; rfl⟩
  · intro r h
    unfold newsFromXmlElement at h
    cases ht : xmlChildText el "text" with
    | none => rw [ht] at h; simp at h
    | some t =>
      rw [ht] at h
      cases hc : xmlChildText el "city" with
      | none => rw [hc] at h; simp at h
      | some c =>
        rw [hc] at h
        simp at h
        exact ⟨t, rfl, xmlChildText_ne_empty el "text" t ht, by rw [← h]; rfl⟩
  · intro r h
    unfold privateAdFromXmlElement at h
    cases ht : xmlChildText el "text" with
    | none => rw [ht] at h; simp at h
    | some t =>
      rw [ht] at h
      cases hc : xmlChildText el "expiration_date" with
      | none => rw [hc] at h; simp at h
      | some c =>
        rw [hc] at h
        simp at h
        exact ⟨t, rfl, xmlChildText_ne_empty el "text" t ht, by rw [← h]; rfl⟩
  · intro r h
    unfold weatherAlertFromXmlElement at h
    cases ht : xmlChildText el "text" with
    | none => rw [ht] at h; simp at h
    | some t =>
      rw [ht] at h
      cases hs : xmlChildText el "severity" with
      | none => rw [hs] at h; simp at h
      | some sev =>
        rw [hs] at h
        cases hl : xmlChildText el "location" with
        | none => rw [hl] at h; simp at h
        | some loc =>
          rw [hl] at h
          simp at h
          exact ⟨t, rfl, xmlChildText_ne_empty el "text" t ht, by rw [← h]; rfl⟩

/-- Witness for the amended C6 at a concrete accepted input. -/
theorem C6_witness :
    ∃ s, jFieldStr [("text", JVal.jstr "Fire downtown"),
        ("city", JVal.jstr "Springfield")] "text" = .ok s ∧ s ≠ "" ∧
      recordText (FeedRecord.news "Fire downtown" "Springfield" sampleTs) = pyStrip s :=
  (C6_accepted_text_nonempty_raw sampleTs sampleEnv
      [("text", JVal.jstr "Fire downtown"), ("city", JVal.jstr "Springfield")]
      (XmlElem.mk "record" [] [] none)).1
    (FeedRecord.news "Fire downtown" "Springfield" sampleTs) (by rfl)

/-- Indexing into a mapped list, with both bounds given. -/
theorem map_get_eq {α β : Type} (f : α → β) (l : List α) (j : Nat)
    (hj : j < l.length) (hj2 : j < (l.map f).length) :
    (l.map f).get ⟨j, hj2⟩ = f (l.get ⟨j, hj⟩) := by
  simp

/-- C4: in a collection envelope whose entries all decode except the one at
index k, both parsers return the remaining N-1 records without aborting:
the result has length N-1 and every entry other than k, including every
entry after k, contributes its record to the result. -/
theorem C4_batch_tolerates_one_failure (env : ParseEnv)
    (es : List JVal) (k : Nat) (hk : k < es.length)
    (hkbad : exceptIsOk (parseJsonEntry env (es.get ⟨k, hk⟩)) = false)
    (hok : ∀ j (hj : j < es.length), j ≠ k →
      exceptIsOk (parseJsonEntry env (es.get ⟨j, hj⟩)) = true)
    (xs : List XmlElem) (hxtags : ∀ x ∈ xs, x.tag = "record")
    (k2 : Nat) (hk2 : k2 < xs.length)
    (hk2bad : exceptIsOk (parseXmlEntry env (xs.get ⟨k2, hk2⟩)) = false)
    (hok2 : ∀ j (hj : j < xs.length), j ≠ k2 →
      exceptIsOk (parseXmlEntry env (xs.get ⟨j, hj⟩)) = true) :
    ∃ l1 l2,
      parseJsonRecords env (JVal.jobj [("records", JVal.jarr es)]) = .ok l1 ∧
      l1.length = es.length - 1 ∧
      (∀ j (hj : j < es.length), j ≠ k →
        ∀ r, parseJsonEntry env (es.get ⟨j, hj⟩) = .ok r → r ∈ l1) ∧
      parseXmlRecords env (XmlElem.mk "records" [] xs none) = .ok l2 ∧
      l2.length = xs.length - 1 ∧
      (∀ j (hj : j < xs.length), j ≠ k2 →
        ∀ r, parseXmlEntry env (xs.get ⟨j, hj⟩) = .ok r → r ∈ l2) := by
  refine ⟨collectOks (es.map (parseJsonEntry env)),
    collectOks (xs.map (parseXmlEntry env)), rfl, ?_, ?_, ?_, ?_, ?_⟩
  · have hklt : k < (es.map (parseJsonEntry env)).length := by
      rw [List.length_map]; exact hk
    have hbad2 : exceptIsOk ((es.map (parseJsonEntry env)).get ⟨k, hklt⟩) = false := by
      rw [map_get_eq (parseJsonEntry env) es k hk hklt]; exact hkbad
    have hall : ∀ j (hj : j < (es.map (parseJsonEntry env)).length), j ≠ k →
        exceptIsOk ((es.map (parseJsonEntry env)).get ⟨j, hj⟩) = true := by
      intro j hj hne
      have hjes : j < es.length := by rw [List.length_map] at hj; exact hj
      rw [map_get_eq (parseJsonEntry env) es j hjes hj]
      exact hok j hjes hne
    have hlen := collectOks_length_one_error (es.map (parseJsonEntry env)) k hklt hbad2 hall
    rw [hlen, List.length_map]
  · intro j hj hne r hr
    have hjm : j < (es.map (parseJsonEntry env)).length := by
      rw [List.length_map]; exact hj
    apply mem_collectOks_of_get (es.map (parseJsonEntry env)) j hjm r
    rw [map_get_eq (parseJsonEntry env) es j hj hjm]
    exact hr
  · have hfil : (xs.filter fun c => c.tag == "record") = xs :=
      List.filter_eq_self.mpr fun a ha => by simp [hxtags a ha]
    unfold parseXmlRecords
    rw [show (XmlElem.mk "records" [] xs none).tag = "records" from rfl, if_pos rfl,
      show (XmlElem.mk "records" [] xs none).children = xs from rfl, hfil]
  · have hklt : k2 < (xs.map (parseXmlEntry env)).length := by
      rw [List.length_map]; exact hk2
    have hbad2 : exceptIsOk ((xs.map (parseXmlEntry env)).get ⟨k2, hklt⟩) = false := by
      rw [map_get_eq (parseXmlEntry env) xs k2 hk2 hklt]; exact hk2bad
    have hall : ∀ j (hj : j < (xs.map (parseXmlEntry env)).length), j ≠ k2 →
        exceptIsOk ((xs.map (parseXmlEntry env)).get ⟨j, hj⟩) = true := by
      intro j hj hne
      have hjxs : j < xs.length := by rw [List.length_map] at hj; exact hj
      rw [map_get_eq (parseXmlEntry env) xs j hjxs hj]
      exact hok2 j hjxs hne
    have hlen := collectOks_length_one_error (xs.map (parseXmlEntry env)) k2 hklt hbad2 hall
    rw [hlen, List.length_map]
  · intro j hj hne r hr
    have hjm : j < (xs.map (parseXmlEntry env)).length := by
      rw [List.length_map]; exact hj
    apply mem_collectOks_of_get (xs.map (parseXmlEntry env)) j hjm r
    rw [map_get_eq (parseXmlEntry env) xs j hj hjm]
    exact hr

/-- Witness for C4 at the concrete three-entry batches whose middle entry is
malformed. -/
theorem C4_witness :
    ∃ l1 l2,
      parseJsonRecords sampleEnv (JVal.jobj [("records", JVal.jarr sampleJsonBatch)])
        = .ok l1 ∧
      l1.length = sampleJsonBatch.length - 1 ∧
      (∀ j (hj : j < sampleJsonBatch.length), j ≠ 1 →
        ∀ r, parseJsonEntry sampleEnv (sampleJsonBatch.get ⟨j, hj⟩) = .ok r → r ∈ l1) ∧
      parseXmlRecords sampleEnv (XmlElem.mk "records" [] sampleXmlBatch none) = .ok l2 ∧
      l2.length = sampleXmlBatch.length - 1 ∧
      (∀ j (hj : j < sampleXmlBatch.length), j ≠ 1 →
        ∀ r, parseXmlEntry sampleEnv (sampleXmlBatch.get ⟨j, hj⟩) = .ok r → r ∈ l2) :=
  C4_batch_tolerates_one_failure sampleEnv sampleJsonBatch 1 (by decide) (by decide)
    (by decide) sampleXmlBatch (by decide) 1 (by decide) (by decide) (by decide)
